import Mathlib

/-!
Verification of the sandboxed, transactional file-operation broker
(file_operations.py and workspace_manager.py).

Paths are modelled in normalized absolute form, as the list of their
components after user expansion and os.path.abspath: the component list
of /workspace/a.txt is [workspace, a.txt].  Symlink resolution
(Path.resolve) is modelled as a function res : PathC -> PathC supplied by
the environment (the symlink table of the filesystem); a filesystem is a
partial map from component paths to entries (regular file with string
content, or directory).
-/

/-- Normalized absolute path: the list of its components below the root. -/
abbrev PathC := List String

/-- Rendering of a path the way str(pathlib.Path) renders an absolute path. -/
def pathStr (p : PathC) : String :=
  "/" ++ String.intercalate "/" p

/-- Model of Python str.startswith: character-wise prefix test. -/
def startswith (s pre : String) : Bool :=
  pre.data.isPrefixOf s.data

/-- Exceptions raised by the Python code under study. -/
inductive PyError
  | valueError
  | fileNotFoundError
  | permissionError
  | isADirectoryError
  | fileExistsError
  | attributeError
  | securityResolved
  | securityOutside
deriving DecidableEq, Repr

deriving instance DecidableEq for Except

/-- Filesystem entry: a regular file with its content, or a directory. -/
inductive Entry
  | file (content : String)
  | dir
deriving DecidableEq, Repr

/-- A filesystem state: a partial map from normalized paths to entries. -/
abbrev FS := PathC → Option Entry

/-- Test for an existing regular file (Path.is_file). -/
def isFileB (fs : FS) (p : PathC) : Bool :=
  match fs p with
  | some (.file _) => true
  | _ => false

/-- Test for an existing directory (Path.is_dir). -/
def isDirB (fs : FS) (p : PathC) : Bool :=
  match fs p with
  | some .dir => true
  | _ => false

namespace FileOperations

/-- FileOperations.validate_path (src/file_operations.py, lines 36-59):
resolve the candidate path, then accept exactly when
str(resolved_path).startswith(str(allowed.resolve())) holds for some
configured allowed path; otherwise raise ValueError. -/
def validate_path (res : PathC → PathC) (allowed_paths : List PathC)
    (path : PathC) : Except PyError PathC :=
  let resolved_path := res path
  if allowed_paths.any (fun allowed => startswith (pathStr resolved_path) (pathStr (res allowed)))
  then .ok resolved_path
  else .error .valueError

end FileOperations

namespace WorkspaceManager

/-- WorkspaceManager._is_path_allowed (src/workspace_manager.py, lines
103-123): Path.relative_to(allowed) succeeds exactly when allowed's
component list is a prefix of the candidate's component list, so the check
is a component-wise containment test over the allowed paths. -/
def is_path_allowed (allowed_paths : List PathC) (p : PathC) : Bool :=
  allowed_paths.any (fun allowed => allowed.isPrefixOf p)

/-- WorkspaceManager._validate_path (src/workspace_manager.py, lines
125-150): reject when the symlink-resolved form escapes every allowed
path, then reject when the normalized (unresolved) form does, and
otherwise return the normalized path. -/
def validate_path (res : PathC → PathC) (allowed_paths : List PathC)
    (path : PathC) : Except PyError PathC :=
  let normalized_path := path
  let real_path := res normalized_path
  if !(is_path_allowed allowed_paths real_path) then .error .securityResolved
  else if !(is_path_allowed allowed_paths normalized_path) then .error .securityOutside
  else .ok normalized_path

end WorkspaceManager

/-- Symlink table for the counterexample environment: /tmp/link is a
symlink whose target is /workspace/f; every other path resolves to
itself. -/
def linkRes : PathC → PathC :=
  fun p => if p = ["tmp", "link"] then ["workspace", "f"] else p

/-- Characterization of the containment test: is_path_allowed holds exactly
when some allowed path is a component-wise ancestor (or equal). -/
theorem is_path_allowed_iff (allowed : List PathC) (p : PathC) :
    WorkspaceManager.is_path_allowed allowed p = true ↔ ∃ r ∈ allowed, r <+: p := by
  simp [WorkspaceManager.is_path_allowed, List.any_eq_true, List.isPrefixOf_iff_prefix]

/-- C1 counterexample: with allowed root /workspace and a symlink
/tmp/link -> /workspace/f, the symlink-resolved form of /tmp/link is a
descendant of an allowed root, yet WorkspaceManager validation rejects the
path (it also requires the unresolved form to be contained), so validation
success is not equivalent to resolved-form descendance. -/
theorem c1_counterexample :
    (∃ r ∈ [(["workspace"] : PathC)], r <+: linkRes ["tmp", "link"]) ∧
    WorkspaceManager.validate_path linkRes [["workspace"]] ["tmp", "link"] =
      .error .securityOutside := by
  decide

/-- C1 amended: WorkspaceManager validation succeeds if and only if BOTH
the normalized (unresolved) form and the symlink-resolved form of the path
are descendants of some allowed root; in every other case it fails with a
WorkspaceSecurityError (resolved-form escape or syntactic escape), which in
particular covers the case of a path whose syntactic form lies inside a
root while its resolved form does not. -/
theorem c1_amended (res : PathC → PathC) (allowed : List PathC) (p : PathC) :
    (WorkspaceManager.validate_path res allowed p = .ok p ↔
      ((∃ r ∈ allowed, r <+: p) ∧ ∃ r ∈ allowed, r <+: res p)) ∧
    (((∃ r ∈ allowed, r <+: p) ∧ ∃ r ∈ allowed, r <+: res p) ∨
      WorkspaceManager.validate_path res allowed p = .error .securityResolved ∨
      WorkspaceManager.validate_path res allowed p = .error .securityOutside) := by
  simp only [← is_path_allowed_iff]
  unfold WorkspaceManager.validate_path
  by_cases hr : WorkspaceManager.is_path_allowed allowed (res p) = true
  · by_cases hn : WorkspaceManager.is_path_allowed allowed p = true
    · simp [hr, hn]
    · simp only [Bool.not_eq_true] at hn
      simp [hr, hn]
  · simp only [Bool.not_eq_true] at hr
    simp [hr]

/-- C2: evaluation of the code at the failing input. With allowed root
/workspace and no symlinks, FileOperations.validate_path ACCEPTS the
sibling path /workspace-evil/x.txt, because it tests
str(resolved).startswith(str(root)) on raw strings instead of whole path
components; the path is not a component-wise descendant of any allowed
root, and the WorkspaceManager validator (which uses relative_to on
components) correctly rejects it. -/
theorem c2_code_bug_eval :
    FileOperations.validate_path id [["workspace"]] ["workspace-evil", "x.txt"] =
      .ok ["workspace-evil", "x.txt"] ∧
    (¬ ∃ r ∈ [(["workspace"] : PathC)], r <+: (["workspace-evil", "x.txt"] : PathC)) ∧
    WorkspaceManager.validate_path id [["workspace"]] ["workspace-evil", "x.txt"] =
      .error .securityResolved := by
  decide

/-- Strict ancestors of a path, shortest first: for [a, b, c, f] these are
[a], [a, b] and [a, b, c] — the chain of directories that
resolved_path.parent.mkdir(parents=True) must ensure exists. -/
def ancestors (p : PathC) : List PathC :=
  (List.range (p.length - 1)).map (fun i => p.take (i + 1))

/-- Every ancestor of a path is strictly shorter than the path. -/
theorem ancestors_length_lt (p q : PathC) (hq : q ∈ ancestors p) :
    q.length < p.length := by
  simp only [ancestors, List.mem_map, List.mem_range] at hq
  obtain ⟨i, hi, rfl⟩ := hq
  simp only [List.length_take]
  omega

/-- A path is never its own ancestor. -/
theorem self_not_mem_ancestors (p : PathC) : p ∉ ancestors p := by
  intro h
  exact absurd (ancestors_length_lt p p h) (lt_irrefl _)

/-- Model of resolved_path.parent.mkdir(parents=True, exist_ok=True): the
call fails when some ancestor of the target exists as a regular file, and
otherwise turns every missing ancestor into a directory (existing
directories are unchanged). -/
def mkdir_parents (fs : FS) (p : PathC) : Except PyError FS :=
  if (ancestors p).any (fun q => isFileB fs q) then .error .fileExistsError
  else .ok (fun q => if q ∈ ancestors p then some .dir else fs q)

namespace FileOperations

/-- Model of str.lower() applied to the confirmation response,
character-wise. -/
def lowerChars (s : String) : List Char := s.data.map Char.toLower

/-- The interactive confirmation gate of safe_write_file accepts the typed
response exactly when its lower-cased form is one of y, ye, yes
(src/file_operations.py, line 115). -/
def confirmation_accepted (response : String) : Bool :=
  ["y", "ye", "yes"].any (fun s => lowerChars response == s.data)

/-- Effective confirmation requirement: the security-config default,
overridden by the confirm argument when it is not None
(src/file_operations.py, lines 109-111). -/
def effective_confirmation (confirm : Option Bool) (config_default : Bool) : Bool :=
  match confirm with
  | some b => b
  | none => config_default

/-- FileOperations.safe_read_file (src/file_operations.py, lines 61-90):
validate the path, then open and return the file content; the
FileNotFoundError of a missing file is re-raised, and reading a directory
raises IsADirectoryError, re-raised by the generic handler. -/
def safe_read_file (res : PathC → PathC) (allowed_paths : List PathC)
    (fs : FS) (path : PathC) : Except PyError String :=
  match validate_path res allowed_paths path with
  | .error e => .error e
  | .ok resolved_path =>
    match fs resolved_path with
    | none => .error .fileNotFoundError
    | some .dir => .error .isADirectoryError
    | some (.file content) => .ok content

/-- FileOperations.safe_write_file (src/file_operations.py, lines 93-128):
validate the path, consult the confirmation policy (raising
PermissionError when the response is refused), create the missing parent
directories of the target, then open the target for writing and write the
content, overwriting any existing file.  The result pairs the raised
error (if any) with the filesystem state after the call, so the theorems
can state exactly what was and was not mutated when an error is raised. -/
def safe_write_file (res : PathC → PathC) (allowed_paths : List PathC)
    (require_confirmation_for_writes : Bool) (fs : FS) (path : PathC)
    (content : String) (confirm : Option Bool) (response : String) :
    Option PyError × FS :=
  match validate_path res allowed_paths path with
  | .error e => (some e, fs)
  | .ok resolved_path =>
    let require_confirmation := effective_confirmation confirm require_confirmation_for_writes
    if require_confirmation && !(confirmation_accepted response) then
      (some .permissionError, fs)
    else
      match mkdir_parents fs resolved_path with
      | .error e => (some e, fs)
      | .ok fs1 =>
        match fs1 resolved_path with
        | some .dir => (some .isADirectoryError, fs1)
        | _ => (none, fun q => if q = resolved_path then some (.file content) else fs1 q)

end FileOperations

/-- C5: when the effective configuration requires confirmation for writes
and the confirmation response is refused, safe_write_file fails with
PermissionError and the filesystem is returned exactly as it was before
the call: nothing is recorded or mutated. -/
theorem c5_confirmation_refusal (res : PathC → PathC) (allowed : List PathC)
    (config_default : Bool) (fs : FS) (p : PathC) (content : String)
    (confirm : Option Bool) (response : String) (rp : PathC)
    (hval : FileOperations.validate_path res allowed p = .ok rp)
    (hreq : FileOperations.effective_confirmation confirm config_default = true)
    (href : FileOperations.confirmation_accepted response = false) :
    FileOperations.safe_write_file res allowed config_default fs p content confirm response =
      (some .permissionError, fs) := by
  unfold FileOperations.safe_write_file
  rw [hval]
  simp [hreq, href]

/-- C5 witness: a concrete refused write inside the allowed root fails with
PermissionError and leaves the (empty) filesystem untouched. -/
theorem c5_confirmation_refusal_witness :
    FileOperations.safe_write_file id [["workspace"]] true (fun _ => none)
      ["workspace", "a.txt"] "hello" none "n" =
      (some .permissionError, (fun _ => none : FS)) :=
  c5_confirmation_refusal id [["workspace"]] true (fun _ => none) ["workspace", "a.txt"]
    "hello" none "n" ["workspace", "a.txt"] (by decide) (by decide) (by decide)

/-- Filesystem for the C6 failing input: the workspace root exists, and a
sibling directory /workspace-evil holds a secret file. -/
def fsC6 : FS := fun p =>
  if p = ["workspace"] then some .dir
  else if p = ["workspace-evil"] then some .dir
  else if p = ["workspace-evil", "secret.txt"] then some (.file "s3cr3t")
  else none

/-- C6: evaluation of the code at the failing input.  With allowed root
/workspace, the path /workspace-evil/secret.txt is outside every allowed
root (not a component-wise descendant), yet safe_read_file returns its
bytes instead of failing with a security error, because validate_path
tests str(resolved).startswith(str(root)) on raw strings. -/
theorem c6_code_bug_eval :
    FileOperations.safe_read_file id [["workspace"]] fsC6 ["workspace-evil", "secret.txt"] =
      .ok "s3cr3t" ∧
    (¬ ∃ r ∈ [(["workspace"] : PathC)], r <+: (["workspace-evil", "secret.txt"] : PathC)) := by
  decide

/-- Filesystem for the C7 theorems: the workspace root exists and the
target file already holds content. -/
def fsC7 : FS := fun p =>
  if p = ["workspace"] then some .dir
  else if p = ["workspace", "a.txt"] then some (.file "old")
  else none

/-- C7 counterexample: the target /workspace/a.txt already exists and no
overwrite permission is granted anywhere (safe_write_file has no overwrite
parameter at all), yet the write succeeds and silently replaces the
content instead of failing with an invalid-operation error. -/
theorem c7_counterexample :
    fsC7 ["workspace", "a.txt"] = some (.file "old") ∧
    (FileOperations.safe_write_file id [["workspace"]] true fsC7
        ["workspace", "a.txt"] "new" (some false) "x").1 = none ∧
    (FileOperations.safe_write_file id [["workspace"]] true fsC7
        ["workspace", "a.txt"] "new" (some false) "x").2 ["workspace", "a.txt"] =
      some (.file "new") := by
  decide

/-- C7 amended: safe_write_file accepts no overwrite flag and never fails
with an invalid-operation error on an existing target.  Once the path
validates and the confirmation gate passes, it creates the missing parent
directories and writes the content, overwriting whatever file was there
before; no backup of the previous content is taken — apart from the
ancestor directories and the target, every other path keeps its previous
entry, so no copy of the old content exists anywhere after the call. -/
theorem c7_amended (res : PathC → PathC) (allowed : List PathC)
    (config_default : Bool) (fs : FS) (p : PathC) (content old : String)
    (confirm : Option Bool) (response : String) (rp : PathC)
    (hval : FileOperations.validate_path res allowed p = .ok rp)
    (hconf : FileOperations.effective_confirmation confirm config_default = false ∨
      FileOperations.confirmation_accepted response = true)
    (hanc : ∀ q ∈ ancestors rp, isFileB fs q = false)
    (hold : fs rp = some (.file old)) :
    (FileOperations.safe_write_file res allowed config_default fs p content confirm response).1 =
      none ∧
    (FileOperations.safe_write_file res allowed config_default fs p content confirm response).2 rp =
      some (.file content) ∧
    (∀ q, q ∉ ancestors rp → q ≠ rp →
      (FileOperations.safe_write_file res allowed config_default fs p content confirm response).2 q =
        fs q) := by
  unfold FileOperations.safe_write_file
  rw [hval]
  have hcond : (FileOperations.effective_confirmation confirm config_default &&
      !(FileOperations.confirmation_accepted response)) = false := by
    rcases hconf with h | h <;> simp [h]
  have hany : (ancestors rp).any (fun q => isFileB fs q) = false := by
    simp only [List.any_eq_false]
    intro q hq
    simp [hanc q hq]
  simp only [hcond, Bool.false_eq_true, if_false, mkdir_parents, hany]
  have hmem : rp ∉ ancestors rp := self_not_mem_ancestors rp
  simp only [hmem, if_false, hold]
  refine ⟨trivial, by simp, ?_⟩
  intro q hq1 hq2
  simp [hq1, hq2]

/-- C7 witness: a concrete confirmed write over an existing file succeeds
and replaces the old content with the new one. -/
theorem c7_amended_witness :
    (FileOperations.safe_write_file id [["workspace"]] true fsC7
        ["workspace", "a.txt"] "new" (some false) "x").1 = none ∧
    (FileOperations.safe_write_file id [["workspace"]] true fsC7
        ["workspace", "a.txt"] "new" (some false) "x").2 ["workspace", "a.txt"] =
      some (.file "new") := by
  have h := c7_amended id [["workspace"]] true fsC7 ["workspace", "a.txt"] "new" "old"
    (some false) "x" ["workspace", "a.txt"] (by decide) (Or.inl (by decide))
    (by decide) (by decide)
  exact ⟨h.1, h.2.1⟩

/-- Filesystem for the C10 witness: only the workspace root exists; none
of the target's intermediate directories exist yet. -/
def fsC10 : FS := fun p => if p = ["workspace"] then some .dir else none

/-- C10: for every validated and confirmed write whose target is not an
existing directory and whose ancestor chain is not blocked by a regular
file, safe_write_file first creates every missing parent directory of the
target and then writes the content, so a write inside the allowed roots
succeeds even when none of the target's intermediate directories exist
yet. -/
theorem c10_creates_parents (res : PathC → PathC) (allowed : List PathC)
    (config_default : Bool) (fs : FS) (p : PathC) (content : String)
    (confirm : Option Bool) (response : String) (rp : PathC)
    (hval : FileOperations.validate_path res allowed p = .ok rp)
    (hconf : FileOperations.effective_confirmation confirm config_default = false ∨
      FileOperations.confirmation_accepted response = true)
    (hanc : ∀ q ∈ ancestors rp, isFileB fs q = false)
    (hnotdir : isDirB fs rp = false) :
    (FileOperations.safe_write_file res allowed config_default fs p content confirm response).1 =
      none ∧
    (∀ q ∈ ancestors rp,
      (FileOperations.safe_write_file res allowed config_default fs p content confirm response).2 q =
        some .dir) ∧
    (FileOperations.safe_write_file res allowed config_default fs p content confirm response).2 rp =
      some (.file content) := by
  unfold FileOperations.safe_write_file
  rw [hval]
  have hcond : (FileOperations.effective_confirmation confirm config_default &&
      !(FileOperations.confirmation_accepted response)) = false := by
    rcases hconf with h | h <;> simp [h]
  have hany : (ancestors rp).any (fun q => isFileB fs q) = false := by
    simp only [List.any_eq_false]
    intro q hq
    simp [hanc q hq]
  simp only [hcond, Bool.false_eq_true, if_false, mkdir_parents, hany]
  have hmem : rp ∉ ancestors rp := self_not_mem_ancestors rp
  rcases hfs : fs rp with _ | e
  · simp only [hmem, if_false, hfs]
    refine ⟨trivial, ?_, by simp⟩
    intro q hq
    have : q ≠ rp := fun h => hmem (h ▸ hq)
    simp [hq, this]
  · cases e with
    | file s =>
      simp only [hmem, if_false, hfs]
      refine ⟨trivial, ?_, by simp⟩
      intro q hq
      have : q ≠ rp := fun h => hmem (h ▸ hq)
      simp [hq, this]
    | dir => simp [isDirB, hfs] at hnotdir

/-- C10 witness: writing /workspace/sub/deep/f.txt when only /workspace
exists succeeds, creating /workspace/sub and /workspace/sub/deep as
directories and the target file with the written content. -/
theorem c10_creates_parents_witness :
    (FileOperations.safe_write_file id [["workspace"]] false fsC10
        ["workspace", "sub", "deep", "f.txt"] "hi" none "").1 = none ∧
    (FileOperations.safe_write_file id [["workspace"]] false fsC10
        ["workspace", "sub", "deep", "f.txt"] "hi" none "").2 ["workspace", "sub"] =
      some .dir ∧
    (FileOperations.safe_write_file id [["workspace"]] false fsC10
        ["workspace", "sub", "deep", "f.txt"] "hi" none "").2 ["workspace", "sub", "deep"] =
      some .dir ∧
    (FileOperations.safe_write_file id [["workspace"]] false fsC10
        ["workspace", "sub", "deep", "f.txt"] "hi" none "").2
        ["workspace", "sub", "deep", "f.txt"] = some (.file "hi") := by
  have h := c10_creates_parents id [["workspace"]] false fsC10
    ["workspace", "sub", "deep", "f.txt"] "hi" none "" ["workspace", "sub", "deep", "f.txt"]
    (by decide) (Or.inl (by decide)) (by decide) (by decide)
  exact ⟨h.1, h.2.1 ["workspace", "sub"] (by decide),
    h.2.1 ["workspace", "sub", "deep"] (by decide), h.2.2⟩

/-- Operation kinds of workspace_manager.FileOperationType. -/
inductive FileOperationType
  | read | write | append | delete | rename | create_dir | list_dir
deriving DecidableEq, Repr

/-- workspace_manager.FileOperation: the record of one applied mutation,
with the optional backup handle needed to invert it. -/
structure FileOperation where
  operation_type : FileOperationType
  path : PathC
  content : Option String := none
  new_path : Option PathC := none
  backup_path : Option PathC := none
deriving DecidableEq, Repr

namespace WorkspaceManager

/-- Model of Path.unlink: remove the single entry at the path. -/
def unlink (fs : FS) (p : PathC) : FS :=
  fun q => if q = p then none else fs q

/-- Model of shutil.rmtree: remove the entry and everything below it. -/
def rmtree (fs : FS) (p : PathC) : FS :=
  fun q => if p.isPrefixOf q then none else fs q

/-- Model of shutil.copy2 on a regular file: the destination now holds the
source's entry; the source is untouched. -/
def copy2 (fs : FS) (src dst : PathC) : FS :=
  fun q => if q = dst then fs src else fs q

/-- Model of shutil.copytree onto a non-existing destination: the subtree
under dst becomes a relocated copy of the subtree under src; the source
tree is untouched. -/
def copytree (fs : FS) (src dst : PathC) : FS :=
  fun q => if dst.isPrefixOf q then fs (src ++ q.drop dst.length) else fs q

/-- Removal step of the backup-restore branch
(src/workspace_manager.py, lines 221-225): unlink a file target, rmtree a
directory target, and do nothing when the target does not exist. -/
def remove_target (fs : FS) (p : PathC) : FS :=
  if (fs p).isSome then
    if isFileB fs p then unlink fs p else rmtree fs p
  else fs

/-- WorkspaceManager._rollback_operation (src/workspace_manager.py, lines
199-231).  With no backup handle, the create_dir branch removes the
recorded path with shutil.rmtree whenever it exists as a directory; any
other operation kind reaches the elif that compares against
FileOperation.WRITE — an attribute lookup on the dataclass itself, which
raises AttributeError before anything is mutated.  With a backup handle
that still exists, the current target (file or tree) is removed and the
backup is copied back onto the target; the backup itself is never removed.
A backup handle naming a non-existent path makes the call a no-op. -/
def rollback_operation (fs : FS) (op : FileOperation) : Except PyError FS :=
  match op.backup_path with
  | none =>
    if op.operation_type = .create_dir then
      if isDirB fs op.path then .ok (rmtree fs op.path) else .ok fs
    else
      .error .attributeError
  | some backup =>
    if (fs backup).isSome then
      let fs1 := remove_target fs op.path
      if isFileB fs1 backup then .ok (copy2 fs1 backup op.path)
      else .ok (copytree fs1 backup op.path)
    else .ok fs

/-- Observation of a rollback outcome at one path: none when the rollback
raised an exception, otherwise the entry found at the queried path in the
resulting filesystem. -/
def rollbackResultAt (fs : FS) (op : FileOperation) (q : PathC) :
    Option (Option Entry) :=
  match rollback_operation fs op with
  | .error _ => none
  | .ok fs1 => some (fs1 q)

/-- Paths outside the removed target's subtree are untouched by the
removal step. -/
theorem remove_target_outside (fs : FS) (p q : PathC)
    (h : p.isPrefixOf q = false) : remove_target fs p q = fs q := by
  unfold remove_target unlink rmtree
  have hpq : q ≠ p := by
    intro hqp
    rw [hqp, List.isPrefixOf_iff_prefix.mpr (List.prefix_refl p)] at h
    simp at h
  by_cases h1 : (fs p).isSome <;> by_cases h2 : isFileB fs p <;> simp [h1, h2, h, hpq]

end WorkspaceManager

/-- Recorded operation for the C3 failing input: a Write on a previously
non-existent target, so no backup handle was taken. -/
def opC3 : FileOperation := { operation_type := .write, path := ["workspace", "new.txt"] }

/-- Filesystem at C3 rollback time: the freshly written file exists. -/
def fsC3 : FS := fun p =>
  if p = ["workspace"] then some .dir
  else if p = ["workspace", "new.txt"] then some (.file "data")
  else none

/-- C3: evaluation of the code at the failing input.  Rolling back a Write
recorded with no backup handle is supposed to delete the created file, but
the source compares the operation type against FileOperation.WRITE — an
attribute of the dataclass, not the FileOperationType enum member — so the
call raises AttributeError and the created file is never deleted. -/
theorem c3_code_bug_eval :
    WorkspaceManager.rollback_operation fsC3 opC3 = .error .attributeError ∧
    fsC3 ["workspace", "new.txt"] = some (.file "data") := by
  constructor
  · rfl
  · decide

/-- Recorded operation for the C4 theorems: a CreateDir with no backup. -/
def opC4 : FileOperation := { operation_type := .create_dir, path := ["workspace", "d"] }

/-- Filesystem at C4 rollback time: the created directory has since gained
a file, so it is not empty. -/
def fsC4 : FS := fun p =>
  if p = ["workspace"] then some .dir
  else if p = ["workspace", "d"] then some .dir
  else if p = ["workspace", "d", "f.txt"] then some (.file "x")
  else none

/-- C4 counterexample: rolling back the CreateDir of /workspace/d while
the directory contains a file deletes the directory AND its content
(shutil.rmtree), instead of leaving the non-empty directory in place. -/
theorem c4_counterexample :
    fsC4 ["workspace", "d", "f.txt"] = some (.file "x") ∧
    WorkspaceManager.rollbackResultAt fsC4 opC4 ["workspace", "d"] = some none ∧
    WorkspaceManager.rollbackResultAt fsC4 opC4 ["workspace", "d", "f.txt"] = some none := by
  decide

/-- C4 amended: rolling back a CreateDir operation with no backup handle
removes the created directory recursively with shutil.rmtree whenever the
recorded path currently exists as a directory — regardless of whether the
directory is empty — and leaves the filesystem unchanged otherwise. -/
theorem c4_amended (fs : FS) (op : FileOperation)
    (hk : op.operation_type = .create_dir) (hb : op.backup_path = none) :
    WorkspaceManager.rollback_operation fs op =
      .ok (if isDirB fs op.path then WorkspaceManager.rmtree fs op.path else fs) := by
  unfold WorkspaceManager.rollback_operation
  rw [hb, hk]
  by_cases h : isDirB fs op.path <;> simp [h]

/-- C4 witness: the amended statement evaluated on the concrete non-empty
directory fixture. -/
theorem c4_amended_witness :
    WorkspaceManager.rollback_operation fsC4 opC4 =
      .ok (if isDirB fsC4 ["workspace", "d"] then WorkspaceManager.rmtree fsC4 ["workspace", "d"]
        else fsC4) :=
  c4_amended fsC4 opC4 rfl rfl

/-- Recorded operation for the C8 counterexample: a Write over a target
whose previous content was backed up to /tmp/bk/a.txt. -/
def opC8 : FileOperation :=
  { operation_type := .write, path := ["workspace", "a.txt"],
    backup_path := some ["tmp", "bk", "a.txt"] }

/-- Filesystem at C8 rollback time: target holds the new content, the
backup directory holds the pre-mutation copy. -/
def fsC8 : FS := fun p =>
  if p = ["workspace"] then some .dir
  else if p = ["workspace", "a.txt"] then some (.file "current")
  else if p = ["tmp"] then some .dir
  else if p = ["tmp", "bk"] then some .dir
  else if p = ["tmp", "bk", "a.txt"] then some (.file "previous")
  else none

/-- C8 counterexample: restoring the backup onto the target does replace
the target with the backup's content, but the handle's temporary storage
is NOT deleted — after the rollback the backup copy still exists at its
temporary location, refuting the guaranteed-release part of the claim. -/
theorem c8_counterexample :
    WorkspaceManager.rollbackResultAt fsC8 opC8 ["workspace", "a.txt"] =
      some (some (.file "previous")) ∧
    WorkspaceManager.rollbackResultAt fsC8 opC8 ["tmp", "bk", "a.txt"] =
      some (some (.file "previous")) := by
  decide

/-- C8 amended: for a recorded operation carrying a backup handle to a
file outside the target's subtree, rollback removes what currently exists
at the target and copies the backup's content back onto it byte-for-byte,
but the handle's temporary copy is not consumed: the backup file still
exists, unchanged, after the restore (no release is ever performed by the
code). -/
theorem c8_amended (fs : FS) (op : FileOperation) (b : PathC) (s : String)
    (hb : op.backup_path = some b)
    (hfile : fs b = some (.file s))
    (hsep : op.path.isPrefixOf b = false) :
    WorkspaceManager.rollbackResultAt fs op op.path = some (some (.file s)) ∧
    WorkspaceManager.rollbackResultAt fs op b = some (some (.file s)) := by
  have hne : b ≠ op.path := by
    intro h
    rw [h, List.isPrefixOf_iff_prefix.mpr (List.prefix_refl op.path)] at hsep
    simp at hsep
  have hout := WorkspaceManager.remove_target_outside fs op.path b hsep
  unfold WorkspaceManager.rollbackResultAt WorkspaceManager.rollback_operation
  rw [hb]
  have hsome : (fs b).isSome = true := by rw [hfile]; rfl
  have hfile1 : isFileB (WorkspaceManager.remove_target fs op.path) b = true := by
    simp [isFileB, hout, hfile]
  simp only [hsome, if_true, hfile1]
  unfold WorkspaceManager.copy2
  simp [hout, hfile, hne]

/-- Recorded operation for the C8 witness: a Write over /workspace/b.txt
backed up to /tmp/bk0/b.txt. -/
def opC8w : FileOperation :=
  { operation_type := .write, path := ["workspace", "b.txt"],
    backup_path := some ["tmp", "bk0", "b.txt"] }

/-- Filesystem for the C8 witness. -/
def fsC8w : FS := fun p =>
  if p = ["workspace"] then some .dir
  else if p = ["workspace", "b.txt"] then some (.file "v2")
  else if p = ["tmp"] then some .dir
  else if p = ["tmp", "bk0"] then some .dir
  else if p = ["tmp", "bk0", "b.txt"] then some (.file "v1")
  else none

/-- C8 witness: the amended statement evaluated on a concrete restore —
the target reverts to the backed-up content and the backup copy remains at
its temporary location. -/
theorem c8_amended_witness :
    WorkspaceManager.rollbackResultAt fsC8w opC8w ["workspace", "b.txt"] =
      some (some (.file "v1")) ∧
    WorkspaceManager.rollbackResultAt fsC8w opC8w ["tmp", "bk0", "b.txt"] =
      some (some (.file "v1")) :=
  c8_amended fsC8w opC8w ["tmp", "bk0", "b.txt"] "v1" rfl (by decide) (by decide)

/-- Modelled from the spec: the transaction state tag of spec section 3 —
the Transaction object (state tag, commit and the transaction-level
rollback driver) is absent from src, where only the per-operation helper
_rollback_operation exists. -/
inductive TxState
  | opened | committed | rolledBack
deriving DecidableEq, Repr

/-- Modelled from the spec: a finitely-listed filesystem (an association
list of absolute paths and entries), used by the transaction-level
rollback model, whose CreateDir case must decide directory emptiness. -/
abbrev FSL := List (PathC × Entry)

/-- Modelled from the spec: removal of the whole subtree at a path from a
listed filesystem. -/
def removeSubtreeL (fs : FSL) (p : PathC) : FSL :=
  fs.filter (fun e => !(p.isPrefixOf e.1))

/-- Modelled from the spec: BackupStore.restore of section 4.2 — remove
whatever currently exists at the target and copy the backup snapshot (a
list of target-relative paths and entries) back, preserving directory
structure. -/
def restoreL (fs : FSL) (snap : List (PathC × Entry)) (target : PathC) : FSL :=
  removeSubtreeL fs target ++ snap.map (fun e => (target ++ e.1, e.2))

/-- Modelled from the spec: emptiness of a directory — no entry strictly
below the path exists. -/
def isEmptyDirL (fs : FSL) (p : PathC) : Bool :=
  !(fs.any (fun e => p.isPrefixOf e.1 && !(e.1 == p)))

/-- Modelled from the spec: moving the subtree at src onto dst, as the
move-back step of a Rename rollback requires. -/
def moveSubtreeL (fs : FSL) (src dst : PathC) : FSL :=
  (removeSubtreeL (removeSubtreeL fs dst) src) ++
    fs.filterMap (fun e =>
      if src.isPrefixOf e.1 then some (dst ++ e.1.drop src.length, e.2) else none)

/-- Modelled from the spec: one entry of the Transaction log (spec section
3, FileOperation), with backup handles as opaque numbers resolved through
a backup store. -/
structure SpecOp where
  kind : FileOperationType
  path : PathC
  new_path : Option PathC := none
  backup : Option Nat := none

/-- Modelled from the spec: the BackupStore, mapping each live handle to
the snapshot it preserves. -/
abbrev BackupStore := Nat → Option (List (PathC × Entry))

/-- Modelled from the spec: the per-entry inverse applied by rollback
(spec section 4.3) — restore the backup for a Write/Append/Delete entry
carrying a handle, delete the target of a fresh Write/Append, move a
Rename back and restore the overwritten destination if it was backed up,
remove a created directory only when it is now empty, and ignore
Read/ListDir entries. -/
def rollback_entry (store : BackupStore) (fs : FSL) (op : SpecOp) : FSL :=
  match op.kind with
  | .write | .append =>
    match op.backup with
    | some h =>
      match store h with
      | some snap => restoreL fs snap op.path
      | none => fs
    | none => removeSubtreeL fs op.path
  | .delete =>
    match op.backup with
    | some h =>
      match store h with
      | some snap => restoreL fs snap op.path
      | none => fs
    | none => fs
  | .rename =>
    match op.new_path with
    | some dest =>
      let moved := moveSubtreeL fs dest op.path
      match op.backup with
      | some h =>
        match store h with
        | some snap => restoreL moved snap dest
        | none => moved
      | none => moved
    | none => fs
  | .create_dir => if isEmptyDirL fs op.path then removeSubtreeL fs op.path else fs
  | .read | .list_dir => fs

/-- Modelled from the spec: the Transaction of section 3 — an ordered log
of operation entries plus a state tag. -/
structure Transaction where
  log : List SpecOp
  state : TxState

/-- Modelled from the spec: Transaction.rollback() of section 4.3 — once
the transaction has reached RolledBack the call is a no-op; otherwise the
log is replayed in reverse order through the per-entry inverse, all
handles are released (the backup store is emptied), the log is discarded
and the state becomes RolledBack. -/
def rollbackTx (t : Transaction × BackupStore × FSL) :
    Transaction × BackupStore × FSL :=
  match t with
  | (tx, store, fs) =>
    if tx.state = .rolledBack then (tx, store, fs)
    else (⟨[], .rolledBack⟩, fun _ => none, tx.log.reverse.foldl (rollback_entry store) fs)

/-- C9: rollback is idempotent — for every transaction log, backup store
and starting filesystem state, performing rollback twice produces exactly
the same state (filesystem included) as performing it once: the first call
leaves the transaction in the terminal RolledBack state, and rolling back
a RolledBack transaction is a no-op. -/
theorem c9_rollback_idempotent (t : Transaction × BackupStore × FSL) :
    rollbackTx (rollbackTx t) = rollbackTx t := by
  obtain ⟨tx, store, fs⟩ := t
  by_cases h : tx.state = .rolledBack <;> simp [rollbackTx, h]
